import Mathlib

/-!
Shallow embedding of the tst-mark-tabs extension core:

* `TSTCustomStateCache` (tree-style-tab custom-state cache): per-state belief
  maps, the serialized `set` operation, bulk `forceNotifyTST`, the
  tab-attached retry loop, and the per-scope operation queue `_queueOp`.
* `SessionDataCache`: entry-keyed fact maps with hydration and event handlers.
* The `marker-tab-data` module state (session/temporary cache policy) and the
  mark creation entry points.

JS objects used as dictionaries are modelled as association lists in key
insertion order; the remote mirror (`notifyTabStateToTST`) and the durable
store are modelled as oracles passed in as parameters, since those modules
are external collaborators of the code under analysis.
-/

namespace TstMarkTabs

/-- Association-list update, matching JS `obj[k] = v`: replaces the value of
an existing key in place, otherwise appends the key (JS string-keyed objects
iterate in insertion order). -/
def upsert {α β : Type} [DecidableEq α] : List (α × β) → α → β → List (α × β)
  | [], k, v => [(k, v)]
  | (k0, v0) :: rest, k, v =>
    if k0 = k then (k0, v) :: rest else (k0, v0) :: upsert rest k v

/-- Association-list removal, matching JS `delete obj[k]`. -/
def delKey {α β : Type} [DecidableEq α] : List (α × β) → α → List (α × β)
  | [], _ => []
  | (k0, v0) :: rest, k =>
    if k0 = k then delKey rest k else (k0, v0) :: delKey rest k

theorem lookup_upsert_self {α β : Type} [DecidableEq α] (l : List (α × β)) (k : α) (v : β) :
    (upsert l k v).lookup k = some v := by
  induction l with
  | nil => simp [upsert]
  | cons hd tl ih =>
    obtain ⟨k0, v0⟩ := hd
    by_cases h : k0 = k
    · subst h; simp [upsert]
    · have hbeq : (k == k0) = false := beq_eq_false_iff_ne.mpr (fun hh => h hh.symm)
      simp [upsert, h, List.lookup, hbeq, ih]

theorem lookup_upsert_ne {α β : Type} [DecidableEq α] (l : List (α × β)) (k k' : α) (v : β)
    (h : k' ≠ k) : (upsert l k v).lookup k' = l.lookup k' := by
  induction l with
  | nil =>
    have hbeq : (k' == k) = false := beq_eq_false_iff_ne.mpr h
    simp [upsert, List.lookup, hbeq]
  | cons hd tl ih =>
    obtain ⟨k0, v0⟩ := hd
    by_cases h0 : k0 = k
    · subst h0
      have hbeq : (k' == k0) = false := beq_eq_false_iff_ne.mpr h
      simp [upsert, List.lookup, hbeq]
    · by_cases h1 : k0 = k'
      · subst h1; simp [upsert, h0, List.lookup]
      · have hbeq : (k' == k0) = false := beq_eq_false_iff_ne.mpr (fun hh => h1 hh.symm)
        simp [upsert, h0, List.lookup, hbeq, ih]

theorem lookup_delKey_self {α β : Type} [DecidableEq α] (l : List (α × β)) (k : α) :
    (delKey l k).lookup k = none := by
  induction l with
  | nil => simp [delKey]
  | cons hd tl ih =>
    obtain ⟨k0, v0⟩ := hd
    by_cases h : k0 = k
    · subst h; simp [delKey, ih]
    · have hbeq : (k == k0) = false := beq_eq_false_iff_ne.mpr (fun hh => h hh.symm)
      simp [delKey, h, List.lookup, hbeq, ih]

/-! ## TSTCustomStateCache (tree-style-tab/custom-state-cache.js) -/

/-- One per-state belief map: JS object keyed by tab id holding booleans
(`cache.cache` in the source). Absent keys read as `false` through
`Boolean(cache.cache[tabId])`. -/
abbrev BeliefMap := List (Nat × Bool)

/-- `Boolean(cache.cache[tabId])` for a belief map. -/
def BeliefMap.read (m : BeliefMap) (tabId : Nat) : Bool :=
  (m.lookup tabId).getD false

/-- Snapshot of a `TSTCustomStateCache` instance: the `classNames` allow-list
(`null` caches every class name), the disposed flag, and `_statesCaches`
keyed by class name. The per-state `ops` promise chains are modelled
separately by the `QueueState` machine below. -/
structure TSTCache where
  classNames : Option (List String)
  isDisposed : Bool
  statesCaches : List (String × BeliefMap)
deriving DecidableEq, Repr

/-- The guard of `_getCache`: it returns `null` when the cache is disposed,
the state name is falsy, or an allow-list exists and does not include the
state. -/
def TSTCache.cacheAllowed (c : TSTCache) (state : String) : Bool :=
  !c.isDisposed && state ≠ "" &&
    (match c.classNames with
     | none => true
     | some allowed => allowed.contains state)

/-- The belief map `_getCache(state).cache`; reading through `_getCache` can
lazily create an empty per-state cache object, and an empty object never
changes any read result, so reads are modelled as pure. -/
def TSTCache.stateCacheOf (c : TSTCache) (state : String) : BeliefMap :=
  (c.statesCaches.lookup state).getD []

/-- Mutation through `_getCache(state)`: creates the per-state cache object
when missing (appended in key insertion order) and applies the update. -/
def updStateCache (sc : List (String × BeliefMap)) (state : String)
    (f : BeliefMap → BeliefMap) : List (String × BeliefMap) :=
  match sc with
  | [] => [(state, f [])]
  | (s, m) :: rest =>
    if s = state then (s, f m) :: rest else (s, m) :: updStateCache rest state f

/-- `TSTCustomStateCache.get(tabId, state)`. -/
def TSTCache.get (c : TSTCache) (tabId : Nat) (state : String) : Bool :=
  if c.cacheAllowed state then (c.stateCacheOf state).read tabId else false

/-- Outcome of one `notifyTabStateToTST` mirror call: acknowledged, reported
failure (resolved `false`), or a thrown/rejected error. The mirror lives in
an external module, so each call site takes the outcome as an oracle. -/
inductive MirrorOutcome where
  | ack
  | nack
  | err (msg : String)
deriving DecidableEq, Repr

/-- The try-block of the callback queued by `TSTCustomStateCache.set`:
short-circuit when the cached belief already equals the requested value,
otherwise call the mirror and update the belief only on acknowledgement.
Returns the updated cache, the outcome (`Except` models a thrown error
reaching the surrounding catch), and how many mirror calls were issued. -/
def setCallbackTry (c : TSTCache) (tabId : Nat) (state : String) (value : Bool)
    (mirror : MirrorOutcome) : TSTCache × Except String Bool × Nat :=
  let currentState := c.get tabId state
  if value = currentState then (c, .ok true, 0)
  else
    match mirror with
    | .err msg => (c, .error msg, 1)
    | .nack => (c, .ok false, 1)
    | .ack =>
      let c' :=
        if c.cacheAllowed state then
          { c with statesCaches :=
              updStateCache c.statesCaches state (fun m => upsert m tabId value) }
        else c
      (c', .ok true, 1)

/-- The full callback of `set`: the catch logs the error and reports `false`
instead of rethrowing. -/
def setCallback (c : TSTCache) (tabId : Nat) (state : String) (value : Bool)
    (mirror : MirrorOutcome) : TSTCache × Bool × Nat :=
  match setCallbackTry c tabId state value mirror with
  | (c', .ok b, n) => (c', b, n)
  | (c', .error _, n) => (c', false, n)

/-- `TSTCustomStateCache.set(tabId, state, value)` as executed once its turn
in the per-scope queue arrives: `_queueOp` returns the default value `false`
without running the callback when `_getCache` yields `null`. Because `set`
leaves `setOpReturnValue` false its queue promise resolves to `undefined`,
so a following queued `set` never skips its own callback. -/
def setRun (c : TSTCache) (tabId : Nat) (state : String) (value : Bool)
    (mirror : MirrorOutcome) : TSTCache × Bool × Nat :=
  if c.cacheAllowed state then setCallback c tabId state value mirror
  else (c, false, 0)

/-- Two serialized `set` calls with the same requested value: the second runs
after the first settles. Returns the final cache, the second result, and the
total number of mirror calls issued. -/
def setTwice (c : TSTCache) (tabId : Nat) (state : String) (value : Bool)
    (m1 m2 : MirrorOutcome) : TSTCache × Bool × Nat :=
  let r1 := setRun c tabId state value m1
  let r2 := setRun r1.1 tabId state value m2
  (r2.1, r2.2.1, r1.2.2 + r2.2.2)

/-! ## The per-scope operation queue of `_queueOp`

`_queueOp` keeps, per (tabId, state) scope, the promise of the most recently
submitted operation in `cache.ops[tabId]`. A newly submitted operation
creates a promise whose body first awaits that stored promise, so its
callback can begin only once the immediate predecessor in the same scope has
settled; the store is overwritten synchronously before any suspension, so
the chain is linear in submission order. A callback can also be skipped
without running (the predecessor resolved a truthy value after a tab
removal, or the cache was disposed), in which case the operation settles
directly. The model below is the induced transition system on task
statuses. -/

/-- A serialization scope: the (tabId, className) pair. -/
abbrev OpScope := Nat × String

inductive TaskStatus where
  | notStarted
  | running
  | settled
deriving DecidableEq, Repr

/-- Queue state: per scope, how many operations were submitted and the
status of each of them (indexed by submission order). -/
structure QueueState where
  submitted : OpScope → Nat
  status : OpScope → Nat → TaskStatus

def QueueState.init : QueueState :=
  { submitted := fun _ => 0, status := fun _ _ => TaskStatus.notStarted }

def statusUpdate (f : OpScope → Nat → TaskStatus) (s : OpScope) (n : Nat)
    (v : TaskStatus) : OpScope → Nat → TaskStatus :=
  fun s' n' => if s' = s ∧ n' = n then v else f s' n'

/-- `_queueOp` is invoked: reads `cache.ops[tabId]`, builds the chained
promise and stores it back, all synchronously. -/
def QueueState.submitOp (σ : QueueState) (s : OpScope) : QueueState :=
  { σ with submitted := fun s' => if s' = s then σ.submitted s + 1 else σ.submitted s' }

/-- A queued operation may begin running its callback only when its
immediate predecessor in the same scope has settled (the `await lastOp`
in the chained promise has resumed). -/
def ReadyToStart (σ : QueueState) (s : OpScope) (n : Nat) : Prop :=
  n < σ.submitted s ∧ σ.status s n = TaskStatus.notStarted ∧
    (n = 0 ∨ σ.status s (n - 1) = TaskStatus.settled)

instance (σ : QueueState) (s : OpScope) (n : Nat) : Decidable (ReadyToStart σ s n) := by
  unfold ReadyToStart; infer_instance

def QueueState.startOp (σ : QueueState) (s : OpScope) (n : Nat) : QueueState :=
  { σ with status := statusUpdate σ.status s n TaskStatus.running }

def QueueState.finishOp (σ : QueueState) (s : OpScope) (n : Nat) : QueueState :=
  { σ with status := statusUpdate σ.status s n TaskStatus.settled }

/-- One interleaving step of the queue machinery. `skip` covers the two ways
a queued operation settles without its callback ever executing: the awaited
`lastResult` was truthy (the scope was invalidated by a tab-removal
operation), or `this.isDisposed` was observed after the await. -/
inductive QueueStep : QueueState → QueueState → Prop
  | submit (σ : QueueState) (s : OpScope) : QueueStep σ (σ.submitOp s)
  | start (σ : QueueState) (s : OpScope) (n : Nat) :
      ReadyToStart σ s n → QueueStep σ (σ.startOp s n)
  | finish (σ : QueueState) (s : OpScope) (n : Nat) :
      σ.status s n = TaskStatus.running → QueueStep σ (σ.finishOp s n)
  | skip (σ : QueueState) (s : OpScope) (n : Nat) :
      ReadyToStart σ s n → QueueStep σ (σ.finishOp s n)

inductive QueueReachable : QueueState → Prop
  | init : QueueReachable QueueState.init
  | step {σ σ' : QueueState} : QueueReachable σ → QueueStep σ σ' → QueueReachable σ'

/-- Per-scope serialization: whenever an operation has started (is running
or settled), every earlier operation of the same scope has already settled.
In particular callbacks of one scope start in submission order, each only
after its immediate predecessor settled, and at most one callback per scope
is executing at any instant. -/
def SerializedPerScope (σ : QueueState) : Prop :=
  ∀ s n m, m < n → σ.status s n ≠ TaskStatus.notStarted →
    σ.status s m = TaskStatus.settled

theorem serialized_init : SerializedPerScope QueueState.init := by
  intro s n m _ h
  exact absurd rfl h

theorem statusUpdate_self (f : OpScope → Nat → TaskStatus) (s : OpScope) (n : Nat)
    (v : TaskStatus) (s' : OpScope) (n' : Nat) (h : s' = s ∧ n' = n) :
    statusUpdate f s n v s' n' = v := by
  unfold statusUpdate; rw [if_pos h]

theorem statusUpdate_other (f : OpScope → Nat → TaskStatus) (s : OpScope) (n : Nat)
    (v : TaskStatus) (s' : OpScope) (n' : Nat) (h : ¬(s' = s ∧ n' = n)) :
    statusUpdate f s n v s' n' = f s' n' := by
  unfold statusUpdate; rw [if_neg h]

theorem startOp_status (σ : QueueState) (s : OpScope) (n : Nat) :
    (σ.startOp s n).status = statusUpdate σ.status s n TaskStatus.running := rfl

theorem finishOp_status (σ : QueueState) (s : OpScope) (n : Nat) :
    (σ.finishOp s n).status = statusUpdate σ.status s n TaskStatus.settled := rfl

theorem serialized_step {σ σ' : QueueState} (hσ : SerializedPerScope σ)
    (hstep : QueueStep σ σ') : SerializedPerScope σ' := by
  cases hstep with
  | submit s =>
    exact fun s' n m hmn hns => hσ s' n m hmn hns
  | start s n hready =>
    intro s' n' m hmn hns
    rcases hready with ⟨-, hnotStarted, hpred⟩
    rw [startOp_status] at hns ⊢
    by_cases hmcase : s' = s ∧ m = n
    · -- the freshly started task cannot be a strict predecessor of an
      -- already-started task: that task would force it to be settled
      obtain ⟨rfl, rfl⟩ := hmcase
      have hne : ¬(s' = s' ∧ n' = m) := fun h => absurd h.2 (by omega)
      rw [statusUpdate_other _ _ _ _ _ _ hne] at hns
      have hset := hσ s' n' m hmn hns
      rw [hset] at hnotStarted
      simp at hnotStarted
    · rw [statusUpdate_other _ _ _ _ _ _ hmcase]
      by_cases hcase : s' = s ∧ n' = n
      · obtain ⟨rfl, rfl⟩ := hcase
        rcases hpred with h0 | hp
        · exact absurd hmn (by omega)
        · rcases Nat.lt_or_ge m (n' - 1) with hlt | hge
          · exact hσ s' (n' - 1) m hlt (by rw [hp]; simp)
          · have hm : m = n' - 1 := by omega
            rw [hm]; exact hp
      · rw [statusUpdate_other _ _ _ _ _ _ hcase] at hns
        exact hσ s' n' m hmn hns
  | finish s n hrun =>
    intro s' n' m hmn hns
    rw [finishOp_status] at hns ⊢
    by_cases hmcase : s' = s ∧ m = n
    · rw [statusUpdate_self _ _ _ _ _ _ hmcase]
    · rw [statusUpdate_other _ _ _ _ _ _ hmcase]
      by_cases hcase : s' = s ∧ n' = n
      · obtain ⟨rfl, rfl⟩ := hcase
        exact hσ s' n' m hmn (by rw [hrun]; simp)
      · rw [statusUpdate_other _ _ _ _ _ _ hcase] at hns
        exact hσ s' n' m hmn hns
  | skip s n hready =>
    intro s' n' m hmn hns
    rcases hready with ⟨-, hnotStarted, hpred⟩
    rw [finishOp_status] at hns ⊢
    by_cases hmcase : s' = s ∧ m = n
    · rw [statusUpdate_self _ _ _ _ _ _ hmcase]
    · rw [statusUpdate_other _ _ _ _ _ _ hmcase]
      by_cases hcase : s' = s ∧ n' = n
      · obtain ⟨rfl, rfl⟩ := hcase
        rcases hpred with h0 | hp
        · exact absurd hmn (by omega)
        · rcases Nat.lt_or_ge m (n' - 1) with hlt | hge
          · exact hσ s' (n' - 1) m hlt (by rw [hp]; simp)
          · have hm : m = n' - 1 := by omega
            rw [hm]; exact hp
      · rw [statusUpdate_other _ _ _ _ _ _ hcase] at hns
        exact hσ s' n' m hmn hns

theorem serialized_reachable {σ : QueueState} (h : QueueReachable σ) :
    SerializedPerScope σ := by
  induction h with
  | init => exact serialized_init
  | step _ hstep ih => exact serialized_step ih hstep

/-- A reachable state in which operations of two different scopes are
executing concurrently: submit and start one operation on tab 1 and one on
tab 2 for the same class name. -/
def demoConcurrent : QueueState :=
  ((((QueueState.init.submitOp (1, "red")).submitOp (2, "red")).startOp
    (1, "red") 0).startOp (2, "red") 0)

theorem demoConcurrent_reachable : QueueReachable demoConcurrent := by
  have h0 := QueueReachable.init
  have h1 := QueueReachable.step h0 (QueueStep.submit _ (1, "red"))
  have h2 := QueueReachable.step h1 (QueueStep.submit _ (2, "red"))
  have h3 := QueueReachable.step h2 (QueueStep.start _ (1, "red") 0 (by
    constructor
    · show 0 < ((QueueState.init.submitOp (1, "red")).submitOp (2, "red")).submitted (1, "red")
      simp [QueueState.init, QueueState.submitOp]
    · exact ⟨rfl, Or.inl rfl⟩))
  exact QueueReachable.step h3 (QueueStep.start _ (2, "red") 0 (by
    constructor
    · show 0 < (((QueueState.init.submitOp (1, "red")).submitOp (2, "red")).startOp
        (1, "red") 0).submitted (2, "red")
      simp [QueueState.init, QueueState.submitOp, QueueState.startOp]
    · exact ⟨rfl, Or.inl rfl⟩))

/-! ## getTabStates, the tab-attached retry loop, and forceNotifyTST -/

/-- `TSTCustomStateCache.getTabStates(tabId)`: every class name whose cache
holds a truthy entry for the tab; empty once disposed. -/
def TSTCache.getTabStates (c : TSTCache) (tabId : Nat) : List String :=
  if c.isDisposed then []
  else c.statesCaches.filterMap (fun p => if p.2.read tabId then some p.1 else none)

/-- Externally visible events of the `_onTabAttached` retry loop: a call to
`delay(ms)` and a `notifyTabStateToTST(tabId, states, true)` call. -/
inductive AttachEvent where
  | delayed (ms : Nat)
  | notified (states : List String)
deriving DecidableEq, Repr

/-- The `for (let attempt = 0; attempt < 4; attempt++)` loop body of
`_onTabAttached`: delay `250 * (attempt + 1)` ms, re-read the tab state list
(`obs (attempt + 1)` is the read after the attempt-th delay; the cache may
have changed during the delay), exit when it is empty, then notify the
mirror; a thrown mirror error propagates out of the loop (flag `true`), the
resolved boolean is ignored. `fuel` is the number of remaining iterations,
4 at the start. -/
def attachLoop (obs : Nat → List String) (mirror : Nat → Except String Bool) :
    Nat → Nat → List AttachEvent × Bool
  | 0, _ => ([], false)
  | fuel + 1, attempt =>
    let s := obs (attempt + 1)
    if s.isEmpty then ([AttachEvent.delayed (250 * (attempt + 1))], false)
    else
      match mirror attempt with
      | .error _ => ([AttachEvent.delayed (250 * (attempt + 1)), .notified s], true)
      | .ok _ =>
        let rest := attachLoop obs mirror fuel (attempt + 1)
        (AttachEvent.delayed (250 * (attempt + 1)) :: AttachEvent.notified s :: rest.1,
          rest.2)

/-- `_onTabAttached(tabId, ...)`: the initial `getTabStates` guard followed by
the 4-attempt loop; the surrounding try/catch swallows a propagated mirror
error (second component `true`), so the handler itself never throws. -/
def onTabAttachedRun (obs : Nat → List String) (mirror : Nat → Except String Bool) :
    List AttachEvent × Bool :=
  if (obs 0).isEmpty then ([], false) else attachLoop obs mirror 4 0

/-- `_onTabAttached` reading its state lists from cache snapshots
(`caches k` is the cache state at the k-th `getTabStates` read). -/
def TSTCache.onTabAttached (caches : Nat → TSTCache) (tabId : Nat)
    (mirror : Nat → Except String Bool) : List AttachEvent × Bool :=
  onTabAttachedRun (fun k => (caches k).getTabStates tabId) mirror

def delaysOf (evs : List AttachEvent) : List Nat :=
  evs.filterMap (fun e => match e with | .delayed ms => some ms | _ => none)

def notifyCount (evs : List AttachEvent) : Nat :=
  (evs.filter (fun e => match e with | .notified _ => true | _ => false)).length

/-- One batched `notifyTabStateToTST(tabIds, state, hasState)` call. -/
abbrev MirrorCall := List Nat × String × Bool

/-- `_getAffectedStates(states)`: intersect the requested states with the
allow-list, or fall back to the allow-list itself. -/
def getAffectedStates (c : TSTCache) (states : Option (List String)) :
    Option (List String) :=
  match c.classNames with
  | none => states
  | some allowed =>
    match states with
    | some l => some (l.filter (fun s => allowed.contains s))
    | none => some allowed

/-- `TSTCustomStateCache.forceNotifyTST(tabIds, {states, remove, add})` with
an explicit tab id list. Per affected state, the tab ids are partitioned by
the settled belief (`getAfterChanges`, which after the queued operations
settle reads the same belief as `get`), and one batched remove call and one
batched add call are issued; `mirror` reports per-call acknowledgement.
Returns the resolved value (`none` models the `undefined` of the guard
returns) and the list of issued mirror calls. -/
def forceNotifyTST (c : TSTCache) (tabIds : List Nat) (states : Option (List String))
    (remove add : Bool) (mirror : List Nat → String → Bool → Bool) :
    Option Bool × List MirrorCall :=
  if c.isDisposed then (some false, [])
  else if !remove && !add then (none, [])
  else
    let affectedStates := (getAffectedStates c states).getD (c.statesCaches.map Prod.fst)
    if affectedStates.isEmpty then (none, [])
    else
      let perState := affectedStates.map (fun affectedState =>
        let tabIdsWithState := tabIds.map (fun t => (t, c.get t affectedState))
        let notifyBatch := fun (hasState enabled : Bool) =>
          if !enabled then (([] : List MirrorCall), true)
          else
            let ids := (tabIdsWithState.filter (fun p => p.2 == hasState)).map Prod.fst
            ([((ids, affectedState, hasState) : MirrorCall)],
              mirror ids affectedState hasState)
        let rm := notifyBatch false remove
        let ad := notifyBatch true add
        (rm.1 ++ ad.1, rm.2 && ad.2))
      (some (perState.all Prod.snd), (perState.map Prod.fst).flatten)

/-! ## SessionDataCache (common/session-data-cache.js) -/

/-- JS values stored as session facts: `undefined`, a string, or a (truthy)
structured object. -/
inductive SDValue where
  | undef
  | str (s : String)
  | obj
deriving DecidableEq, Repr

/-- JS truthiness for an `SDValue`; the empty string is falsy. -/
def SDValue.truthy : SDValue → Bool
  | .undef => false
  | .str s => s ≠ ""
  | .obj => true

/-- One fact map (`StorageEntry`): session keys to values. -/
abbrev EntryData := List (String × SDValue)

/-- `_storage`: entry ids to fact maps. -/
abbrev Storage := List (Nat × EntryData)

/-- `_createDataForEntry` during `start`: fetch each monitored key and store
truthy values over the pre-seeded data (the parallel `Promise.all` writes
pairwise-distinct keys, modelled in key list order). -/
def hydrateEntry (fetch : Nat → String → SDValue) (keys : List String)
    (entryId : Nat) (data : EntryData) : EntryData :=
  keys.foldl (fun d key =>
    let v := fetch entryId key
    if v.truthy then upsert d key v else d) data

/-- `SessionDataCache._start()`: for every listed entry id create (or keep)
its data object and hydrate the monitored keys; entries of the initial
storage whose id is not listed stay untouched. -/
def startStorage (initial : Storage) (entryIds : List Nat)
    (fetch : Nat → String → SDValue) (keys : List String) : Storage :=
  entryIds.foldl (fun σ entryId =>
    upsert σ entryId (hydrateEntry fetch keys entryId ((σ.lookup entryId).getD [])))
    initial

/-- `_onEntryRemoved(entryId)` once `_suppressEvent` resumed (it awaited
`start` first): a no-op when disposed or the entry is unknown, otherwise the
entry is deleted and a data-change event (without key) fires (second
component). Every lookup is guarded (`if (!data) return`), so the handler is
a total function of the state: no exception escapes it. -/
def onEntryRemovedBody (disposed : Bool) (σ : Storage) (entryId : Nat) :
    Storage × Bool :=
  if disposed then (σ, false)
  else
    match σ.lookup entryId with
    | none => (σ, false)
    | some _ => (delKey σ entryId, true)

/-- Payload of the `_onDataChanged` event as built by `_notifyDataChange`:
`details.key` and `details.value` are attached only when truthy. -/
structure CacheChangePayload where
  entryId : Nat
  key : Option String
  value : Option SDValue
deriving DecidableEq, Repr

/-- `_notifyDataChange(entryId, key, value)`. -/
def notifyDataChange (disposed : Bool) (entryId : Nat) (key : Option String)
    (value : SDValue) : Option CacheChangePayload :=
  if disposed then none
  else
    some { entryId := entryId
           key := match key with
                  | some k => if k = "" then none else some k
                  | none => none
           value := if value.truthy then some value else none }

/-- `_onEntryChanged({entryId, key, newValue})` after awaiting `start` and
the entry hydration promise: ignore unmonitored keys, store a defined value
or delete an undefined one, then fire the data-changed payload. -/
def onEntryChangedBody (monitored : List String) (disposed : Bool) (σ : Storage)
    (entryId : Nat) (key : String) (newValue : SDValue) :
    Storage × Option CacheChangePayload :=
  if ¬ monitored.contains key then (σ, none)
  else if disposed then (σ, none)
  else
    match σ.lookup entryId with
    | none => (σ, none)
    | some data =>
      let data' :=
        if newValue ≠ SDValue.undef then upsert data key newValue
        else delKey data key
      (upsert σ entryId data', notifyDataChange false entryId (some key) newValue)

/-! ## marker-tab-data module (marked-tab bookkeeping and persistence) -/

/-- `kTAB_DATA_KEY_MARKED` from common.js. -/
def kTAB_DATA_KEY_MARKED : String := "marked"

/-- `Object.keys(kCOLORS)` from common.js. -/
def kCOLORS_keys : List String :=
  ["blue", "turquoise", "green", "yellow", "orange", "red", "pink", "purple", "toolbar"]

/-- `getMarkedTabIds()`: filter the cached storage by a truthy marked value
and render every entry id with `String(tabId)`; when obtaining the cache or
awaiting its `start` throws, the catch returns `null` (`none`). -/
def getMarkedTabIds (cacheStart : Except String Storage) : Option (List String) :=
  match cacheStart with
  | .error _ => none
  | .ok σ =>
    some ((σ.filter (fun p =>
      ((p.2.lookup kTAB_DATA_KEY_MARKED).getD SDValue.undef).truthy)).map
        (fun p => toString p.1))

/-- Module-level mutable state of marker-tab-data: keep-time, persistence
flag, the two cache singletons (by their storage snapshot; `none` when the
singleton does not exist) and the pending eviction timer (by its scheduled
duration; `none` when no active timer). -/
structure MarkerDataState where
  timeToKeep : Int
  useSessionStorage : Bool
  sessionDataCache : Option Storage
  temporaryCache : Option Storage
  sessionTimeout : Option Int
deriving DecidableEq, Repr

/-- `getCache()`: create the missing cache singleton for the current policy;
a new temporary cache is seeded with a deep copy of the session cache
storage (empty when there is none), a new session cache starts hydrating
from the browser session store. -/
def getCacheEnsure (σ : MarkerDataState) : MarkerDataState :=
  if σ.useSessionStorage then
    match σ.sessionDataCache with
    | some _ => σ
    | none => { σ with sessionDataCache := some [] }
  else
    match σ.temporaryCache with
    | some _ => σ
    | none => { σ with temporaryCache := some (σ.sessionDataCache.getD []) }

/-- `migrateTempData()`, by its settled effect on the module state:
temporary values are written into session data (through
`browser.sessions.setTabValue` plus the change events that feed the session
cache), and the temporary cache is disposed when the policy still points at
session storage. -/
def migrateTempData (σ : MarkerDataState) : MarkerDataState :=
  let σ' :=
    match σ.sessionDataCache, σ.temporaryCache with
    | some sess, some temp =>
      { σ with sessionDataCache := some (temp.foldl (fun acc p =>
          p.2.foldl (fun acc2 kv =>
            upsert acc2 p.1 (upsert ((acc2.lookup p.1).getD []) kv.1 kv.2)) acc) sess) }
    | _, _ => σ
  if σ'.temporaryCache.isSome && σ'.useSessionStorage then
    { σ' with temporaryCache := none }
  else σ'

/-- `removeSessionCache()`: when the policy is off and a session cache still
exists, first init the temporary cache from it, then dispose and drop the
session cache; the trailing `browser.sessions.removeTabValue` round are
external effects. Everything up to dropping the cache runs synchronously
inside the caller. -/
def removeSessionCacheRun (σ : MarkerDataState) : MarkerDataState :=
  if σ.sessionDataCache.isSome && !σ.useSessionStorage then
    let σ1 := getCacheEnsure σ
    { σ1 with sessionDataCache := none }
  else σ

/-- `setUseSessionStorage(value)`. -/
def setUseSessionStorageRun (value : Bool) (σ : MarkerDataState) : MarkerDataState :=
  if value = σ.useSessionStorage then σ
  else
    let σ1 := { σ with useSessionStorage := value, sessionTimeout := none }
    if value then
      match σ1.sessionDataCache with
      | some _ => migrateTempData σ1
      | none => getCacheEnsure σ1
    else
      match σ1.sessionDataCache with
      | some _ =>
        if σ1.timeToKeep < 0 then removeSessionCacheRun σ1
        else { σ1 with sessionTimeout := some σ1.timeToKeep }
      | none => σ1

/-- `setTimeToKeepCacheInMilliseconds(value)`: clamp negatives to -1 and
restart any active eviction timer with the new duration. -/
def setTimeToKeepRun (value : Int) (σ : MarkerDataState) : MarkerDataState :=
  let clamped := if value < 0 then -1 else value
  if clamped = σ.timeToKeep then σ
  else
    let σ1 := { σ with timeToKeep := clamped }
    match σ1.sessionTimeout with
    | some _ => { σ1 with sessionTimeout := some clamped }
    | none => σ1

/-- Externally visible effects of `createTabMark`. -/
inductive MarkEffect where
  | sessionWrite (tabId : Nat) (key value : String)
  | sessionChangedEvent (tabId : Nat) (value : String)
  | tempChangedEvent (tabId : Nat) (value : String)
deriving DecidableEq, Repr

/-- The try-block of `createTabMark(tabId, color, options)`: an unknown
color throws; a tab already marked with the color short-circuits; otherwise
the session value is written when the policy or the option demands it
(`sessionWriteResult` is the outcome of `browser.sessions.setTabValue`) and
the change events fire. `currentMark` is what `await getTabMark(tabId)`
resolved. Returns the effects issued and the outcome reaching the catch. -/
def createTabMarkTry (useSession forceSetSessionData notifyChange : Bool)
    (currentMark : Option String) (sessionWriteResult : Except String Unit)
    (tabId : Nat) (color : String) : List MarkEffect × Except String Bool :=
  if ¬ kCOLORS_keys.contains color then
    ([], .error ("Tried to mark a tab with the unknown color " ++ color))
  else if !forceSetSessionData && currentMark = some color then
    ([], .ok true)
  else
    let sessionPart : List MarkEffect × Except String Unit :=
      if useSession || forceSetSessionData then
        match sessionWriteResult with
        | .error e =>
          ([MarkEffect.sessionWrite tabId kTAB_DATA_KEY_MARKED color], .error e)
        | .ok _ =>
          ([MarkEffect.sessionWrite tabId kTAB_DATA_KEY_MARKED color,
            .sessionChangedEvent tabId color], .ok ())
      else ([], .ok ())
    match sessionPart.2 with
    | .error e => (sessionPart.1, .error e)
    | .ok _ =>
      (sessionPart.1 ++
        (if notifyChange then [MarkEffect.tempChangedEvent tabId color] else []),
        .ok true)

/-- `createTabMark` itself: its own catch logs any thrown error and resolves
the call to `false`. -/
def createTabMark (useSession forceSetSessionData notifyChange : Bool)
    (currentMark : Option String) (sessionWriteResult : Except String Unit)
    (tabId : Nat) (color : String) : List MarkEffect × Bool :=
  match createTabMarkTry useSession forceSetSessionData notifyChange currentMark
      sessionWriteResult tabId color with
  | (effs, .ok b) => (effs, b)
  | (effs, .error _) => (effs, false)

/-! ## Claim theorems -/

theorem lookup_updStateCache_self (sc : List (String × BeliefMap)) (state : String)
    (f : BeliefMap → BeliefMap) :
    (updStateCache sc state f).lookup state = some (f ((sc.lookup state).getD [])) := by
  induction sc with
  | nil => simp [updStateCache]
  | cons hd tl ih =>
    obtain ⟨s, m⟩ := hd
    by_cases h : s = state
    · subst h; simp [updStateCache, List.lookup]
    · have hbeq : (state == s) = false := beq_eq_false_iff_ne.mpr (fun hh => h hh.symm)
      simp [updStateCache, h, List.lookup, hbeq, ih]

theorem cacheAllowed_update (c : TSTCache) (sc : List (String × BeliefMap))
    (state : String) :
    ({ c with statesCaches := sc } : TSTCache).cacheAllowed state = c.cacheAllowed state :=
  rfl

/-- Closed form of `setRun` on an allowed state. -/
theorem setRun_eq (c : TSTCache) (tabId : Nat) (state : String) (value : Bool)
    (mirror : MirrorOutcome) (hall : c.cacheAllowed state = true) :
    setRun c tabId state value mirror =
      if value = c.get tabId state then (c, true, 0)
      else
        match mirror with
        | .ack =>
          ({ c with statesCaches :=
              updStateCache c.statesCaches state (fun m => upsert m tabId value) },
            true, 1)
        | .nack => (c, false, 1)
        | .err _ => (c, false, 1) := by
  unfold setRun setCallback setCallbackTry
  by_cases heq : value = c.get tabId state
  · simp [hall, heq]
  · cases mirror <;> simp [hall, heq]

theorem setRun_not_allowed (c : TSTCache) (tabId : Nat) (state : String) (value : Bool)
    (mirror : MirrorOutcome) (hall : c.cacheAllowed state = false) :
    setRun c tabId state value mirror = (c, false, 0) := by
  unfold setRun
  simp [hall]

/-- After an acknowledged (or short-circuited) `set` on an allowed state the
cached belief reads back the requested value. -/
theorem get_after_ack (c : TSTCache) (tabId : Nat) (state : String) (value : Bool)
    (hall : c.cacheAllowed state = true) :
    (setRun c tabId state value MirrorOutcome.ack).1.get tabId state = value := by
  rw [setRun_eq c tabId state value MirrorOutcome.ack hall]
  by_cases heq : value = c.get tabId state
  · simp [heq]
  · rw [if_neg heq]
    show ({ c with statesCaches :=
        updStateCache c.statesCaches state (fun m => upsert m tabId value) } :
      TSTCache).get tabId state = value
    unfold TSTCache.get TSTCache.stateCacheOf BeliefMap.read
    rw [cacheAllowed_update, hall]
    simp [lookup_updStateCache_self, lookup_upsert_self]

/-- C2: if the mirror call issued by `set` fails (`nack`) or throws (`err`),
the cached belief is left unchanged, `get` afterwards returns the value from
before the call, and `set` resolves to `false`; the catch inside the queued
callback (modelled by `setCallback` squashing the `Except.error` case)
guarantees the promise resolves rather than rejects. -/
theorem claim_C2_failed_set_leaves_belief (c : TSTCache) (tabId : Nat) (state : String)
    (value : Bool) (mirror : MirrorOutcome) (hm : mirror ≠ MirrorOutcome.ack)
    (hcall : (setRun c tabId state value mirror).2.2 = 1) :
    (setRun c tabId state value mirror).1 = c ∧
    (setRun c tabId state value mirror).1.get tabId state = c.get tabId state ∧
    (setRun c tabId state value mirror).2.1 = false := by
  by_cases hall : c.cacheAllowed state = true
  · rw [setRun_eq c tabId state value mirror hall] at hcall ⊢
    by_cases heq : value = c.get tabId state
    · rw [if_pos heq] at hcall
      simp at hcall
    · rw [if_neg heq] at hcall ⊢
      cases mirror with
      | ack => exact absurd rfl hm
      | nack => exact ⟨rfl, rfl, rfl⟩
      | err msg => exact ⟨rfl, rfl, rfl⟩
  · have hf : c.cacheAllowed state = false := by simpa using hall
    rw [setRun_not_allowed c tabId state value mirror hf] at hcall
    simp at hcall

def witnessCacheC2 : TSTCache :=
  { classNames := some ["red"], isDisposed := false,
    statesCaches := [("red", [(1, true)])] }

theorem claim_C2_failed_set_leaves_belief_witness :
    (setRun witnessCacheC2 1 "red" false MirrorOutcome.nack).1 = witnessCacheC2 ∧
    (setRun witnessCacheC2 1 "red" false MirrorOutcome.nack).1.get 1 "red" =
      witnessCacheC2.get 1 "red" ∧
    (setRun witnessCacheC2 1 "red" false MirrorOutcome.nack).2.1 = false :=
  claim_C2_failed_set_leaves_belief witnessCacheC2 1 "red" false MirrorOutcome.nack
    (by decide) (by decide)

def counterexampleCacheC3 : TSTCache :=
  { classNames := some ["red"], isDisposed := false, statesCaches := [] }

/-- C3 counterexample: when the first mirror call is not acknowledged the
belief stays unchanged, so the second `set` with the same value does not
short-circuit and a second mirror call is issued — two mirror calls in
total, refuting the at-most-one-mirror-call reading for two successive identical
`set` calls. -/
theorem claim_C3_counterexample :
    (setTwice counterexampleCacheC3 1 "red" true MirrorOutcome.nack
      MirrorOutcome.nack).2.2 = 2 ∧
    ¬ ((setTwice counterexampleCacheC3 1 "red" true MirrorOutcome.nack
      MirrorOutcome.nack).2.2 ≤ 1) := by
  decide

/-- C3 (amended): when the state is allowed and the first `set` either
short-circuits or its mirror call is acknowledged, the second identical
`set` finds the belief equal to the value and short-circuits successfully,
issuing no mirror call; at most one mirror call happens in total. -/
theorem claim_C3_idempotent_after_ack (c : TSTCache) (tabId : Nat) (state : String)
    (value : Bool) (m2 : MirrorOutcome) (hall : c.cacheAllowed state = true) :
    (setRun (setRun c tabId state value MirrorOutcome.ack).1 tabId state value m2).2.2 = 0 ∧
    (setRun (setRun c tabId state value MirrorOutcome.ack).1 tabId state value m2).2.1 =
      true ∧
    (setTwice c tabId state value MirrorOutcome.ack m2).2.2 ≤ 1 := by
  have hget := get_after_ack c tabId state value hall
  have hall1 : (setRun c tabId state value MirrorOutcome.ack).1.cacheAllowed state = true := by
    rw [setRun_eq c tabId state value MirrorOutcome.ack hall]
    by_cases heq : value = c.get tabId state
    · rw [if_pos heq]; exact hall
    · rw [if_neg heq]; exact hall
  have hsecond :
      setRun (setRun c tabId state value MirrorOutcome.ack).1 tabId state value m2 =
        ((setRun c tabId state value MirrorOutcome.ack).1, true, 0) := by
    rw [setRun_eq _ tabId state value m2 hall1, if_pos hget.symm]
  have hfirst : (setRun c tabId state value MirrorOutcome.ack).2.2 ≤ 1 := by
    rw [setRun_eq c tabId state value MirrorOutcome.ack hall]
    by_cases heq : value = c.get tabId state
    · rw [if_pos heq]; exact Nat.zero_le 1
    · rw [if_neg heq]
  refine ⟨by rw [hsecond], by rw [hsecond], ?_⟩
  · unfold setTwice
    simp only [hsecond]
    simpa using hfirst

theorem claim_C3_idempotent_after_ack_witness :
    (setRun (setRun counterexampleCacheC3 1 "red" true MirrorOutcome.ack).1 1 "red" true
      MirrorOutcome.nack).2.2 = 0 ∧
    (setRun (setRun counterexampleCacheC3 1 "red" true MirrorOutcome.ack).1 1 "red" true
      MirrorOutcome.nack).2.1 = true ∧
    (setTwice counterexampleCacheC3 1 "red" true MirrorOutcome.ack MirrorOutcome.nack).2.2 ≤ 1 :=
  claim_C3_idempotent_after_ack counterexampleCacheC3 1 "red" true MirrorOutcome.nack
    (by decide)

/-- C6: an entry-removed event delivered before `start()` resolves is held by
`_suppressEvent` until `start` settles; the handler then runs on the started
storage and the entry ends up absent, whether or not `start` hydrated it.
The handler is a total function of the cache state (every lookup is guarded
by `if (!data) return`), so it cannot throw. -/
theorem claim_C6_removed_before_start (initial : Storage) (entryIds : List Nat)
    (fetch : Nat → String → SDValue) (keys : List String) (entryId : Nat) :
    (onEntryRemovedBody false (startStorage initial entryIds fetch keys)
      entryId).1.lookup entryId = none := by
  unfold onEntryRemovedBody
  rw [if_neg (by simp)]
  cases h : (startStorage initial entryIds fetch keys).lookup entryId with
  | none => simp [h]
  | some d => simp [h, lookup_delKey_self]

/-- C9 counterexample: a fact-changed event whose new value is the defined
but falsy empty string stores the fact (it is not deleted), yet the payload omits the
value, because `_notifyDataChange` attaches `details.value` only when the
value is truthy — refuting the reading that the value is omitted exactly when
the fact was deleted. -/
theorem claim_C9_counterexample :
    ((onEntryChangedBody ["marked"] false [(1, [])] 1 "marked" (SDValue.str (""))).1.lookup 1 =
      some [("marked", SDValue.str (""))]) ∧
    ((onEntryChangedBody ["marked"] false [(1, [])] 1 "marked" (SDValue.str (""))).2 =
      some { entryId := 1, key := some ("marked"), value := none }) := by
  decide

/-- C9 (amended): on a fact-changed event for a known, hydrated entry and a
monitored key, a defined value is stored and an undefined value deletes the
key; the payload carries the entry id, the key (when truthy) and the value,
the value being omitted exactly when the new value is falsy — in particular
always when the fact was deleted, but also for defined falsy values such as
the empty string. -/
theorem claim_C9_change_event (monitored : List String) (σ : Storage) (entryId : Nat)
    (key : String) (newValue : SDValue) (data : EntryData)
    (hmon : monitored.contains key = true) (hdata : σ.lookup entryId = some data) :
    (newValue ≠ SDValue.undef →
      (((onEntryChangedBody monitored false σ entryId key newValue).1.lookup
        entryId).getD []).lookup key = some newValue) ∧
    (newValue = SDValue.undef →
      (((onEntryChangedBody monitored false σ entryId key newValue).1.lookup
        entryId).getD []).lookup key = none) ∧
    (onEntryChangedBody monitored false σ entryId key newValue).2 =
      some { entryId := entryId
             key := if key = "" then none else some key
             value := if newValue.truthy then some newValue else none } := by
  have hmem : key ∈ monitored := by simpa using hmon
  refine ⟨?_, ?_, ?_⟩
  · intro hdef
    unfold onEntryChangedBody notifyDataChange
    simp [hmem, hdata, hdef, lookup_upsert_self]
  · intro hundef
    unfold onEntryChangedBody notifyDataChange
    simp [hmem, hdata, hundef, lookup_upsert_self, lookup_delKey_self]
  · unfold onEntryChangedBody notifyDataChange
    by_cases hundef : newValue = SDValue.undef
    · simp [hmem, hdata, hundef]
    · simp [hmem, hdata, hundef]

theorem claim_C9_change_event_witness :
    ((SDValue.str ("red") ≠ SDValue.undef →
      (((onEntryChangedBody ["marked"] false [(1, [])] 1 "marked"
        (SDValue.str ("red"))).1.lookup 1).getD []).lookup ("marked") =
          some (SDValue.str ("red"))) ∧
    (SDValue.str ("red") = SDValue.undef →
      (((onEntryChangedBody ["marked"] false [(1, [])] 1 "marked"
        (SDValue.str ("red"))).1.lookup 1).getD []).lookup ("marked") = none) ∧
    (onEntryChangedBody ["marked"] false [(1, [])] 1 "marked" (SDValue.str ("red"))).2 =
      some { entryId := 1
             key := if ("marked" : String) = "" then none else some ("marked")
             value := if (SDValue.str ("red")).truthy then some (SDValue.str ("red"))
                      else none }) :=
  claim_C9_change_event ["marked"] [(1, [])] 1 "marked" (SDValue.str ("red")) []
    (by decide) (by decide)

/-- C10: `getMarkedTabIds` resolves to exactly the string renderings of the
ids of cached entries whose marked value is truthy, and resolves to `null`
(`none`), not an empty array, when obtaining the cache or awaiting its
startup throws. -/
theorem claim_C10_marked_tab_ids :
    (∀ msg : String, getMarkedTabIds (Except.error msg) = none) ∧
    (∀ σ : Storage, (getMarkedTabIds (Except.ok σ)).isSome = true) ∧
    (∀ (σ : Storage) (s : String),
      s ∈ (getMarkedTabIds (Except.ok σ)).getD [] ↔
        ∃ entry ∈ σ,
          ((entry.2.lookup kTAB_DATA_KEY_MARKED).getD SDValue.undef).truthy = true ∧
          s = toString entry.1) := by
  refine ⟨fun msg => rfl, fun σ => rfl, fun σ s => ?_⟩
  unfold getMarkedTabIds
  simp only [Option.getD_some, List.mem_map, List.mem_filter]
  constructor
  · rintro ⟨entry, ⟨hmem, hmark⟩, hs⟩
    exact ⟨entry, hmem, hmark, hs.symm⟩
  · rintro ⟨entry, hmem, hmark, hs⟩
    exact ⟨entry, ⟨hmem, hmark⟩, hs.symm⟩

def counterexampleStateC7 : MarkerDataState :=
  { timeToKeep := -1, useSessionStorage := true,
    sessionDataCache := some [(1, [("marked", SDValue.str ("red"))])],
    temporaryCache := none, sessionTimeout := none }

/-- C7 counterexample: with a negative keep-time and an existing session
cache, toggling the persistence policy off releases the session cache at
once (`removeSessionCache` is called immediately), instead of never freeing
it as the claim states. -/
theorem claim_C7_counterexample :
    (setUseSessionStorageRun false counterexampleStateC7).sessionDataCache = none := by
  decide

/-- C7 (amended): toggling the persistence policy off with an existing
session cache releases that cache immediately (without scheduling a timer)
when the configured keep-time is negative; only for a non-negative keep-time
is the cache retained and the eviction timer scheduled with that
duration. -/
theorem claim_C7_negative_keep_time (σ : MarkerDataState) (s : Storage)
    (huse : σ.useSessionStorage = true) (hcache : σ.sessionDataCache = some s) :
    (σ.timeToKeep < 0 →
      (setUseSessionStorageRun false σ).sessionDataCache = none ∧
      (setUseSessionStorageRun false σ).sessionTimeout = none) ∧
    (0 ≤ σ.timeToKeep →
      (setUseSessionStorageRun false σ).sessionDataCache = some s ∧
      (setUseSessionStorageRun false σ).sessionTimeout = some σ.timeToKeep) := by
  unfold setUseSessionStorageRun
  rw [if_neg (by simp [huse])]
  rw [if_neg (by simp)]
  constructor
  · intro hneg
    simp only [hcache]
    rw [if_pos (by simpa using hneg)]
    unfold removeSessionCacheRun getCacheEnsure
    rw [if_pos (by simp [hcache])]
    simp only [huse]
    cases htmp : σ.temporaryCache with
    | none => simp [htmp]
    | some t => simp [htmp]
  · intro hpos
    simp only [hcache]
    rw [if_neg (by simpa using Int.not_lt.mpr hpos)]
    exact ⟨rfl, rfl⟩

theorem claim_C7_negative_keep_time_witness :
    (setUseSessionStorageRun false counterexampleStateC7).sessionDataCache = none ∧
    (setUseSessionStorageRun false counterexampleStateC7).sessionTimeout = none :=
  (claim_C7_negative_keep_time counterexampleStateC7
    [(1, [("marked", SDValue.str ("red"))])] rfl rfl).1 (by decide)

/-- C8 counterexample: `createTabMark` with the unknown color bogus
does throw inside its try-block, but its own catch swallows the error and
the call resolves to `false` with no effects — the error is converted to a
boolean failure result instead of surfacing to the caller, refuting the
claim. -/
theorem claim_C8_counterexample :
    createTabMark false false true none (Except.ok ()) 1 "bogus" = ([], false) ∧
    createTabMarkTry false false true none (Except.ok ()) 1 "bogus" =
      ([], Except.error ("Tried to mark a tab with the unknown color bogus")) := by
  constructor
  · decide
  · unfold createTabMarkTry
    rw [if_pos (by decide)]
    rfl

/-- C8 (amended): calling `createTabMark` with a color that is not among the
keys of `kCOLORS` throws inside the function, but the error is caught by the
surrounding catch, logged, and the call resolves to `false` with no session
write and no change event; nothing propagates to the caller. -/
theorem claim_C8_unknown_color_swallowed (useSession forceSetSessionData notifyChange : Bool)
    (currentMark : Option String) (sessionWriteResult : Except String Unit)
    (tabId : Nat) (color : String) (hcolor : kCOLORS_keys.contains color = false) :
    createTabMark useSession forceSetSessionData notifyChange currentMark
      sessionWriteResult tabId color = ([], false) := by
  unfold createTabMark createTabMarkTry
  rw [if_pos (by simpa using hcolor)]

theorem claim_C8_unknown_color_swallowed_witness :
    createTabMark true false true none (Except.ok ()) 7 "magenta" = ([], false) :=
  claim_C8_unknown_color_swallowed true false true none (Except.ok ()) 7 "magenta"
    (by decide)

theorem partition_ids_pos (l : List Nat) (f : Nat → Bool) :
    ((l.map (fun t => (t, f t))).filter (fun p => p.2)).map Prod.fst = l.filter f := by
  induction l with
  | nil => rfl
  | cons hd tl ih =>
    by_cases h : f hd = true
    · simp [List.filter_cons, h, ih]
    · simp only [Bool.not_eq_true] at h
      simp [List.filter_cons, h, ih]

theorem partition_ids_neg (l : List Nat) (f : Nat → Bool) :
    ((l.map (fun t => (t, f t))).filter (fun p => !p.2)).map Prod.fst =
      l.filter (fun t => !f t) := by
  induction l with
  | nil => rfl
  | cons hd tl ih =>
    by_cases h : f hd = true
    · simp [List.filter_cons, h, ih]
    · simp only [Bool.not_eq_true] at h
      simp [List.filter_cons, h, ih]

theorem flatten_pairs_filter_pos {β : Type} (l : List β) (f g : β → MirrorCall)
    (p : MirrorCall → Bool) (hf : ∀ s, p (f s) = false) (hg : ∀ s, p (g s) = true) :
    (((l.map (fun s => [f s, g s])).flatten).filter p).length = l.length := by
  induction l with
  | nil => rfl
  | cons hd tl ih =>
    have hpair : List.filter p [f hd, g hd] = [g hd] := by
      simp [List.filter_cons, hf hd, hg hd]
    simp only [List.map_cons, List.flatten_cons, List.filter_append, hpair,
      List.length_append, ih, List.length_cons, List.length_nil, List.length,
      Nat.add_comm]

theorem flatten_pairs_filter_neg {β : Type} (l : List β) (f g : β → MirrorCall)
    (p : MirrorCall → Bool) (hf : ∀ s, p (f s) = true) (hg : ∀ s, p (g s) = false) :
    (((l.map (fun s => [f s, g s])).flatten).filter p).length = l.length := by
  induction l with
  | nil => rfl
  | cons hd tl ih =>
    have hpair : List.filter p [f hd, g hd] = [f hd] := by
      simp [List.filter_cons, hf hd, hg hd]
    simp only [List.map_cons, List.flatten_cons, List.filter_append, hpair,
      List.length_append, ih, List.length_cons, List.length_nil, List.length,
      Nat.add_comm]

theorem all_map_comp {α β : Type} (l : List α) (f : α → β) (p : β → Bool) :
    (l.map f).all p = l.all (fun a => p (f a)) := by
  induction l with
  | nil => rfl
  | cons hd tl ih => simp [ih]

theorem flatten_pairs_all {β : Type} (l : List β) (f g : β → MirrorCall)
    (q : MirrorCall → Bool) :
    ((l.map (fun s => [f s, g s])).flatten).all q =
      l.all (fun s => q (f s) && q (g s)) := by
  induction l with
  | nil => rfl
  | cons hd tl ih => simp [ih, Bool.and_assoc]

/-- Modelled from the spec (claim C4, a refinement statement): the expected
batched mirror calls of `forceNotifyTST` — per affected state, one remove
call covering the tab ids whose settled belief lacks the state and one add
call covering the ids that carry it. To be compared with the call list the
source-translated `forceNotifyTST` produces. -/
def specBatchedCalls (c : TSTCache) (tabIds : List Nat) (affected : List String) :
    List MirrorCall :=
  (affected.map (fun s =>
    [((tabIds.filter (fun t => c.get t s == false), s, false) : MirrorCall),
     ((tabIds.filter (fun t => c.get t s == true), s, true) : MirrorCall)])).flatten

/-- C4: with remove and add enabled and n affected states, `forceNotifyTST`
issues exactly n batched add calls and n batched remove calls — one of each
per state, covering the tab ids partitioned by the settled belief via
`getAfterChanges` — never one call per entry, and it resolves `true` only if
every one of those batched calls succeeded (its resolved value is the
conjunction of all call acknowledgements). -/
theorem claim_C4_forceNotify_batching (c : TSTCache) (tabIds : List Nat)
    (states : Option (List String)) (mirror : List Nat → String → Bool → Bool)
    (affected : List String) (hdisp : c.isDisposed = false)
    (haff : (getAffectedStates c states).getD (c.statesCaches.map Prod.fst) = affected)
    (hne : affected ≠ []) :
    (forceNotifyTST c tabIds states true true mirror).2 =
      specBatchedCalls c tabIds affected ∧
    ((forceNotifyTST c tabIds states true true mirror).2.filter
      (fun call => call.2.2)).length = affected.length ∧
    ((forceNotifyTST c tabIds states true true mirror).2.filter
      (fun call => !call.2.2)).length = affected.length ∧
    (forceNotifyTST c tabIds states true true mirror).1 =
      some (((forceNotifyTST c tabIds states true true mirror).2).all
        (fun call => mirror call.1 call.2.1 call.2.2)) := by
  have hiseq : affected.isEmpty = false := by
    cases affected with
    | nil => exact absurd rfl hne
    | cons hd tl => rfl
  have hcalls :
      (forceNotifyTST c tabIds states true true mirror).2 =
        specBatchedCalls c tabIds affected := by
    unfold forceNotifyTST specBatchedCalls
    simp [hdisp, haff, hiseq, List.map_map, partition_ids_pos, partition_ids_neg,
      Function.comp]
    rfl
  refine ⟨hcalls, ?_, ?_, ?_⟩
  · rw [hcalls]
    unfold specBatchedCalls
    exact flatten_pairs_filter_pos affected _ _ _ (fun s => rfl) (fun s => rfl)
  · rw [hcalls]
    unfold specBatchedCalls
    exact flatten_pairs_filter_neg affected _ _ _ (fun s => rfl) (fun s => rfl)
  · rw [hcalls]
    unfold specBatchedCalls
    rw [flatten_pairs_all]
    unfold forceNotifyTST
    simp [hdisp, haff, hiseq, partition_ids_pos, partition_ids_neg, Function.comp]
    rw [all_map_comp]

def witnessCacheC4 : TSTCache :=
  { classNames := none, isDisposed := false,
    statesCaches := [("red", [(1, true), (3, true)]), ("blue", [(2, true)])] }

theorem claim_C4_forceNotify_batching_witness :
    (forceNotifyTST witnessCacheC4 [1, 2, 3] (some ["red", "blue"]) true true
      (fun _ _ _ => true)).2 =
      specBatchedCalls witnessCacheC4 [1, 2, 3] ["red", "blue"] ∧
    ((forceNotifyTST witnessCacheC4 [1, 2, 3] (some ["red", "blue"]) true true
      (fun _ _ _ => true)).2.filter (fun call => call.2.2)).length =
      (["red", "blue"] : List String).length ∧
    ((forceNotifyTST witnessCacheC4 [1, 2, 3] (some ["red", "blue"]) true true
      (fun _ _ _ => true)).2.filter (fun call => !call.2.2)).length =
      (["red", "blue"] : List String).length ∧
    (forceNotifyTST witnessCacheC4 [1, 2, 3] (some ["red", "blue"]) true true
      (fun _ _ _ => true)).1 =
      some (((forceNotifyTST witnessCacheC4 [1, 2, 3] (some ["red", "blue"]) true true
        (fun _ _ _ => true)).2).all (fun _ => true)) :=
  claim_C4_forceNotify_batching witnessCacheC4 [1, 2, 3] (some ["red", "blue"])
    (fun _ _ _ => true) ["red", "blue"] rfl (by decide) (by decide)

theorem notifyCount_nil : notifyCount [] = 0 := rfl

theorem notifyCount_delayed_cons (ms : Nat) (evs : List AttachEvent) :
    notifyCount (AttachEvent.delayed ms :: evs) = notifyCount evs := by
  simp [notifyCount, List.filter]

theorem notifyCount_notified_cons (s : List String) (evs : List AttachEvent) :
    notifyCount (AttachEvent.notified s :: evs) = notifyCount evs + 1 := by
  simp [notifyCount, List.filter]

theorem delaysOf_delayed_cons (ms : Nat) (evs : List AttachEvent) :
    delaysOf (AttachEvent.delayed ms :: evs) = ms :: delaysOf evs := by
  simp [delaysOf]

theorem delaysOf_notified_cons (s : List String) (evs : List AttachEvent) :
    delaysOf (AttachEvent.notified s :: evs) = delaysOf evs := by
  simp [delaysOf]

theorem attachLoop_succ (obs : Nat → List String) (mirror : Nat → Except String Bool)
    (f a : Nat) :
    attachLoop obs mirror (f + 1) a =
      if (obs (a + 1)).isEmpty then ([AttachEvent.delayed (250 * (a + 1))], false)
      else
        match mirror a with
        | .error _ =>
          ([AttachEvent.delayed (250 * (a + 1)), .notified (obs (a + 1))], true)
        | .ok _ =>
          (AttachEvent.delayed (250 * (a + 1)) :: AttachEvent.notified (obs (a + 1)) ::
            (attachLoop obs mirror f (a + 1)).1, (attachLoop obs mirror f (a + 1)).2) :=
  rfl

theorem attachLoop_notify_le (obs : Nat → List String)
    (mirror : Nat → Except String Bool) :
    ∀ fuel a, notifyCount (attachLoop obs mirror fuel a).1 ≤ fuel := by
  intro fuel
  induction fuel with
  | zero => intro a; simp [attachLoop, notifyCount]
  | succ f ih =>
    intro a
    rw [attachLoop_succ]
    by_cases hemp : (obs (a + 1)).isEmpty
    · rw [if_pos hemp]
      simp [notifyCount, List.filter]
    · rw [if_neg hemp]
      cases hm : mirror a with
      | error e =>
        simp only [notifyCount_delayed_cons, notifyCount_notified_cons, notifyCount_nil]
        omega
      | ok b =>
        simp only [notifyCount_delayed_cons, notifyCount_notified_cons]
        have := ih (a + 1)
        omega

theorem attachLoop_delays (obs : Nat → List String)
    (mirror : Nat → Except String Bool) :
    ∀ fuel a, ∃ j, j ≤ fuel ∧
      delaysOf (attachLoop obs mirror fuel a).1 =
        (List.range' (a + 1) j).map (fun k => 250 * k) := by
  intro fuel
  induction fuel with
  | zero => exact fun a => ⟨0, Nat.le_refl 0, by simp [attachLoop, delaysOf]⟩
  | succ f ih =>
    intro a
    rw [attachLoop_succ]
    by_cases hemp : (obs (a + 1)).isEmpty
    · rw [if_pos hemp]
      exact ⟨1, by omega, by simp [delaysOf, List.range']⟩
    · rw [if_neg hemp]
      cases hm : mirror a with
      | error e =>
        exact ⟨1, by omega, by simp [delaysOf, List.range']⟩
      | ok b =>
        obtain ⟨j, hj, heq⟩ := ih (a + 1)
        refine ⟨j + 1, by omega, ?_⟩
        rw [delaysOf_delayed_cons, delaysOf_notified_cons, heq, List.range'_succ,
          List.map_cons]

theorem attachLoop_empty_cut (obs : Nat → List String)
    (mirror : Nat → Except String Bool) :
    ∀ fuel a j, (obs (a + j + 1)).isEmpty = true →
      notifyCount (attachLoop obs mirror fuel a).1 ≤ j := by
  intro fuel
  induction fuel with
  | zero => intro a j _; simp [attachLoop, notifyCount]
  | succ f ih =>
    intro a j h
    rw [attachLoop_succ]
    by_cases hemp : (obs (a + 1)).isEmpty
    · rw [if_pos hemp]
      simp [notifyCount, List.filter]
    · rw [if_neg hemp]
      cases j with
      | zero => exact absurd h hemp
      | succ j' =>
        cases hm : mirror a with
        | error e =>
          simp only [notifyCount_delayed_cons, notifyCount_notified_cons, notifyCount_nil]
          omega
        | ok b =>
          have h' : (obs ((a + 1) + j' + 1)).isEmpty = true := by
            rw [show (a + 1) + j' + 1 = a + (j' + 1) + 1 by omega]
            exact h
          have := ih (a + 1) j' h'
          simp only [notifyCount_delayed_cons, notifyCount_notified_cons]
          omega

theorem attachLoop_never_ack (obs : Nat → List String)
    (mirror : Nat → Except String Bool) (hS : ∀ k, (obs k).isEmpty = false)
    (hM : ∀ k, mirror k = Except.ok false) :
    attachLoop obs mirror 4 0 =
      ([.delayed 250, .notified (obs 1), .delayed 500, .notified (obs 2),
        .delayed 750, .notified (obs 3), .delayed 1000, .notified (obs 4)], false) := by
  simp [attachLoop, hS, hM]

/-- C5: after a tab-attached event the retry loop makes at most 4 mirror
notifications, delays of 250, 500, 750 and 1000 ms run before attempts 1-4;
an empty believed-flag list before the loop exits immediately with no delay
and no call, an empty list observed at check k stops the loop with at most
k-1 calls made; and with flags present throughout and a mirror that never
acknowledges (always resolves `false`), exactly the four attempts run — no
call after the fourth — and no error is thrown (the final flag `false` means
nothing was even caught). -/
theorem claim_C5_attach_retry (caches : Nat → TSTCache) (tabId : Nat)
    (mirror : Nat → Except String Bool) :
    notifyCount (TSTCache.onTabAttached caches tabId mirror).1 ≤ 4 ∧
    (∃ j, j ≤ 4 ∧ delaysOf (TSTCache.onTabAttached caches tabId mirror).1 =
      (List.range' 1 j).map (fun k => 250 * k)) ∧
    ((caches 0).getTabStates tabId = [] →
      TSTCache.onTabAttached caches tabId mirror = ([], false)) ∧
    (∀ k, 1 ≤ k → (caches k).getTabStates tabId = [] →
      notifyCount (TSTCache.onTabAttached caches tabId mirror).1 ≤ k - 1) ∧
    ((∀ k, (caches k).getTabStates tabId ≠ []) →
      (∀ k, mirror k = Except.ok false) →
      TSTCache.onTabAttached caches tabId mirror =
        ([.delayed 250, .notified ((caches 1).getTabStates tabId),
          .delayed 500, .notified ((caches 2).getTabStates tabId),
          .delayed 750, .notified ((caches 3).getTabStates tabId),
          .delayed 1000, .notified ((caches 4).getTabStates tabId)], false)) := by
  unfold TSTCache.onTabAttached onTabAttachedRun
  by_cases h0 : ((caches 0).getTabStates tabId).isEmpty
  · rw [if_pos h0]
    refine ⟨by simp [notifyCount], ⟨0, by omega, by simp [delaysOf]⟩,
      fun _ => rfl, fun k _ _ => by simp [notifyCount], fun hne _ => ?_⟩
    exact absurd (List.isEmpty_iff.mp h0) (hne 0)
  · rw [if_neg h0]
    refine ⟨attachLoop_notify_le _ _ 4 0, attachLoop_delays _ _ 4 0,
      fun hnil => absurd (by simp [hnil]) h0, fun k h1 hk => ?_, fun hne hM => ?_⟩
    · have hidx : 0 + (k - 1) + 1 = k := by omega
      refine attachLoop_empty_cut _ mirror 4 0 (k - 1) ?_
      rw [hidx]
      simp [hk]
    · have hS : ∀ k, ((caches k).getTabStates tabId).isEmpty = false := by
        intro k
        cases hcase : (caches k).getTabStates tabId with
        | nil => exact absurd hcase (hne k)
        | cons hd tl => rfl
      exact attachLoop_never_ack _ mirror hS hM

def witnessCacheC5 : TSTCache :=
  { classNames := some ["red"], isDisposed := false,
    statesCaches := [("red", [(1, true)])] }

theorem claim_C5_attach_retry_witness :
    TSTCache.onTabAttached (fun _ => witnessCacheC5) 1 (fun _ => Except.ok false) =
      ([.delayed 250, .notified ["red"], .delayed 500, .notified ["red"],
        .delayed 750, .notified ["red"], .delayed 1000, .notified ["red"]], false) := by
  have h := (claim_C5_attach_retry (fun _ => witnessCacheC5) 1
    (fun _ => Except.ok false)).2.2.2.2 (fun k => by decide) (fun k => rfl)
  simpa using h

/-- C1: in every reachable queue state, per (tabId, className) scope the
operations satisfy `SerializedPerScope` — whenever an operation is running
or settled every earlier operation of the same scope has settled, so
callbacks (including the mirror call inside `set`) start in submission
order, each only after its immediate predecessor settled — and consequently
at most one callback per scope executes at any instant; operations on
different scopes carry no ordering constraint: `demoConcurrent` is a
reachable state in which the first operations of two distinct scopes run
concurrently. -/
theorem claim_C1_per_scope_serialization :
    (∀ σ, QueueReachable σ → SerializedPerScope σ) ∧
    (∀ σ, QueueReachable σ → ∀ s n m, σ.status s n = TaskStatus.running →
      σ.status s m = TaskStatus.running → n = m) ∧
    (QueueReachable demoConcurrent ∧
      demoConcurrent.status (1, "red") 0 = TaskStatus.running ∧
      demoConcurrent.status (2, "red") 0 = TaskStatus.running ∧
      ((1, "red") : OpScope) ≠ ((2, "red") : OpScope)) := by
  refine ⟨fun σ h => serialized_reachable h, fun σ h s n m hn hm => ?_,
    demoConcurrent_reachable, rfl, rfl, by decide⟩
  rcases Nat.lt_trichotomy n m with hlt | heq | hgt
  · have := serialized_reachable h s m n hlt (by rw [hm]; simp)
    rw [this] at hn
    cases hn
  · exact heq
  · have := serialized_reachable h s n m hgt (by rw [hn]; simp)
    rw [this] at hm
    cases hm

theorem claim_C1_per_scope_serialization_witness :
    SerializedPerScope demoConcurrent ∧
    (∀ s n m, demoConcurrent.status s n = TaskStatus.running →
      demoConcurrent.status s m = TaskStatus.running → n = m) :=
  ⟨claim_C1_per_scope_serialization.1 demoConcurrent demoConcurrent_reachable,
    claim_C1_per_scope_serialization.2.1 demoConcurrent demoConcurrent_reachable⟩

end TstMarkTabs
